import Mathlib

/-!
Shallow embedding of the invoice-extraction pipeline of the repository
(classification-driven extraction over a language-model backend).

Conventions used throughout:
- JavaScript numbers are modelled as rationals; none of the verified
  properties depends on floating-point rounding.
- A JavaScript object field that may be absent or null is an `Option`;
  JavaScript truthiness on the modelled types is: `none` is falsy,
  `some ""` and `some 0` are falsy, an array value is always truthy.
- The backend gateway (the OpenAI client) is modelled by the outcome of
  the single call the code makes: the call throws, answers with empty
  content, answers with content that is not JSON, or answers with a
  parsed JSON reply.  Client construction and file reading are I/O shims
  outside the modelled core.
-/

/-- The closed document-type taxonomy, from the `InvoiceType` enum of the
classification-aware parser variant (src/unnamed/part_002, lines 4-11). -/
inductive InvoiceType where
  | STANDARD
  | PURCHASE_ORDER
  | RECEIPT
  | PROFORMA
  | CREDIT_NOTE
  | UNKNOWN
deriving DecidableEq

/-- The string value carried by each `InvoiceType` enum member. -/
def invoiceTypeValue : InvoiceType → String
  | .STANDARD => "standard"
  | .PURCHASE_ORDER => "purchase_order"
  | .RECEIPT => "receipt"
  | .PROFORMA => "proforma"
  | .CREDIT_NOTE => "credit_note"
  | .UNKNOWN => "unknown"

/-- Value list of the enum, the `Object.values(InvoiceType)` membership list. -/
def invoiceTypeValues : List String :=
  ["standard", "purchase_order", "receipt", "proforma", "credit_note", "unknown"]

/-- The enum member whose value is the given string, when the string is one of
the six values (the `includes` membership test plus the `as InvoiceType` cast). -/
def invoiceTypeOfString (s : String) : Option InvoiceType :=
  if s = "standard" then some .STANDARD
  else if s = "purchase_order" then some .PURCHASE_ORDER
  else if s = "receipt" then some .RECEIPT
  else if s = "proforma" then some .PROFORMA
  else if s = "credit_note" then some .CREDIT_NOTE
  else if s = "unknown" then some .UNKNOWN
  else none

/-- A JSON value as far as the classifier's validation can distinguish it:
the membership test on `type` only ever succeeds on one of the six enum
strings, and the `typeof` test on `confidence` only on a number. -/
inductive JsonValue where
  | jundef
  | jnull
  | jbool (b : Bool)
  | jnum (q : ℚ)
  | jstr (s : String)
  | jarr
  | jobj
deriving DecidableEq

/-- The backend classification reply after `JSON.parse`, as the code reads it:
a `type` field, a `confidence` field (either may be absent or of any JSON
type), and whatever runner-up list the reply may also carry. -/
structure RawClassificationReply where
  type : JsonValue
  confidence : JsonValue
  possibleTypes : Option (List String)
deriving DecidableEq

/-- Type `InvoiceClassification` (src/unnamed/part_002, lines 14-19): chosen type,
confidence score, optional runner-up types and metadata. -/
structure InvoiceClassification where
  type : InvoiceType
  confidence : ℚ
  possibleTypes : Option (List InvoiceType)
  metadata : Option (List (String × String))
deriving DecidableEq

/-- Outcome of the one gateway round trip a pipeline stage performs:
the call throws (network/auth), returns empty content, returns content that
`JSON.parse` rejects, or returns a parsed reply of the expected shape. -/
inductive GatewayOutcome (α : Type) where
  | failure
  | noContent
  | badJson
  | reply (r : α)

/-- Function `classifyInvoice` (src/unnamed/part_002, lines 72-137).  The `try` body
throws on empty content and on invalid JSON; the `catch` turns every failure
into `{type: UNKNOWN, confidence: 0}`.  On a parsed reply the code first
coerces a `type` outside the enum to UNKNOWN, then independently forces a
`confidence` that is not a number in [0,1] to 0, and returns an object
holding only `type` and `confidence`. -/
def classifyInvoice (outcome : GatewayOutcome RawClassificationReply) :
    InvoiceClassification :=
  match outcome with
  | .failure => ⟨.UNKNOWN, 0, none, none⟩
  | .noContent => ⟨.UNKNOWN, 0, none, none⟩
  | .badJson => ⟨.UNKNOWN, 0, none, none⟩
  | .reply r =>
      let t : InvoiceType :=
        match r.type with
        | .jstr s => (invoiceTypeOfString s).getD .UNKNOWN
        | _ => .UNKNOWN
      let c : ℚ :=
        match r.confidence with
        | .jnum q => if q < 0 ∨ 1 < q then 0 else q
        | _ => 0
      ⟨t, c, none, none⟩

/-- Type `InvoiceItem` (src/unnamed/part_002, lines 40-45): one line item. -/
structure InvoiceItem where
  description : String
  quantity : ℚ
  unitPrice : ℚ
  amount : ℚ
deriving DecidableEq

/-- The extraction reply after `JSON.parse`, read against the `InvoiceData`
field list (src/unnamed/part_002, lines 22-37): each field may be absent or
null (`none`) or carry a value of its declared type. -/
structure RawInvoiceData where
  invoiceNumber : Option String
  invoiceDate : Option String
  dueDate : Option String
  vendorName : Option String
  vendorAddress : Option String
  customerName : Option String
  customerAddress : Option String
  items : Option (List InvoiceItem)
  subtotal : Option ℚ
  taxAmount : Option ℚ
  totalAmount : Option ℚ
  currency : Option String
  paymentTerms : Option String
deriving DecidableEq

/-- The reply with every field absent. -/
def emptyRawInvoice : RawInvoiceData :=
  ⟨none, none, none, none, none, none, none, none, none, none, none, none, none⟩

/-- The JavaScript `x || d` on a string-typed field: absent, null and the empty
string are falsy. -/
def orStr (v : Option String) (d : String) : String :=
  match v with
  | none => d
  | some s => if s = "" then d else s

/-- The JavaScript `x || d` on a number-typed field: absent, null and 0 are falsy. -/
def orNum (v : Option ℚ) (d : ℚ) : ℚ :=
  match v with
  | none => d
  | some q => if q = 0 then d else q

/-- The JavaScript `x || d` on an array-typed field: every array, including the
empty one, is truthy; only absent and null fall to the default. -/
def orList (v : Option (List InvoiceItem)) (d : List InvoiceItem) :
    List InvoiceItem :=
  match v with
  | none => d
  | some xs => xs

/-- The JavaScript `!x` on a string-typed field. -/
def jsFalsyStr (v : Option String) : Bool :=
  match v with
  | none => true
  | some s => s = ""

/-- The JavaScript `!x` on a number-typed field. -/
def jsFalsyNum (v : Option ℚ) : Bool :=
  match v with
  | none => true
  | some q => q = 0

/-- The default-filling block of `parseInvoice` (src/unnamed/part_002,
lines 196-204), applied in source order: invoiceNumber, vendorName,
totalAmount, currency, items, invoiceDate (the current ISO calendar date,
passed in as `today`), then subtotal from the already-defaulted totalAmount. -/
def applyDefaults (today : String) (p : RawInvoiceData) : RawInvoiceData :=
  let p1 := { p with invoiceNumber := some (orStr p.invoiceNumber "UNKNOWN") }
  let p2 := { p1 with vendorName := some (orStr p1.vendorName "UNKNOWN") }
  let p3 := { p2 with totalAmount := some (orNum p2.totalAmount 0) }
  let p4 := { p3 with currency := some (orStr p3.currency "USD") }
  let p5 := { p4 with items := some (orList p4.items []) }
  let p6 := { p5 with invoiceDate := some (orStr p5.invoiceDate today) }
  { p6 with subtotal := some (orNum p6.subtotal ((p6.totalAmount).getD 0)) }

/-- The error kinds a pipeline stage can surface: the gateway call threw,
the reply had no content, the content was not JSON, required fields were
missing (the throwing validator path), or the image entry point was called
with neither an image nor a path. -/
inductive ExtractError where
  | GatewayFailure
  | NoContentError
  | MalformedResponseError
  | MissingRequiredFields
deriving DecidableEq

/-- The object `parseInvoice` returns: the extraction reply after
normalization, plus the classification attached when one was computed. -/
structure ParsedInvoice where
  data : RawInvoiceData
  classification : Option InvoiceClassification
deriving DecidableEq

/-- The generic extraction instruction (src/unnamed/part_002, line 159). -/
def genericExtractionInstruction : String :=
  "You are an expert invoice parser. Extract structured data as JSON from the provided invoice text."

/-- The system-prompt construction of `parseInvoice` (src/unnamed/part_002,
lines 158-163), the piece the design calls the Strategy Selector: the
classification is absent when the caller skipped it; a hint naming the
uppercased type value is appended unless the type is UNKNOWN. -/
def selectInstruction (classification : Option InvoiceClassification) : String :=
  match classification with
  | none => genericExtractionInstruction
  | some c =>
      if c.type ≠ InvoiceType.UNKNOWN then
        genericExtractionInstruction ++ " This is a " ++
          (invoiceTypeValue c.type).toUpper ++ " type invoice."
      else
        genericExtractionInstruction

/-- Everything observable about one `parseInvoice` run: the returned or
thrown outcome, the instruction sent to the gateway, and how many gateway
calls the classification step made. -/
structure ParseRun where
  result : Except ExtractError ParsedInvoice
  instruction : String
  classifierCalls : Nat

/-- Function `parseInvoice` of the classification-aware variant (src/unnamed/part_002,
lines 146-217).  Unless skipped, it first runs `classifyInvoice` (one gateway
call; that call's outcome is `classifyOutcome`), builds the system prompt,
then makes the extraction gateway call (outcome `extractOutcome`).  Empty
content and invalid JSON throw, and the catch block rethrows; a parsed reply
gets the classification attached and the defaults applied. -/
def parseInvoice (today : String)
    (classifyOutcome : GatewayOutcome RawClassificationReply)
    (extractOutcome : GatewayOutcome RawInvoiceData)
    (skipClassification : Bool) : ParseRun :=
  let classification : Option InvoiceClassification :=
    if skipClassification then none else some (classifyInvoice classifyOutcome)
  let instruction := selectInstruction classification
  let result : Except ExtractError ParsedInvoice :=
    match extractOutcome with
    | .failure => .error .GatewayFailure
    | .noContent => .error .NoContentError
    | .badJson => .error .MalformedResponseError
    | .reply raw => .ok ⟨applyDefaults today raw, classification⟩
  ⟨result, instruction, if skipClassification then 0 else 1⟩

namespace SrcInvoiceParser

/-- Function `parseInvoice` of src/src/invoiceParser.ts (lines 53-92): same gateway
call and content checks, but instead of default-filling it performs the
inline required-field check of lines 81-84 and throws
"Invoice parsing failed: Missing required fields" when invoiceNumber,
vendorName or totalAmount is absent or falsy. -/
def parseInvoice (extractOutcome : GatewayOutcome RawInvoiceData) :
    Except ExtractError RawInvoiceData :=
  match extractOutcome with
  | .failure => .error .GatewayFailure
  | .noContent => .error .NoContentError
  | .badJson => .error .MalformedResponseError
  | .reply raw =>
      if jsFalsyStr raw.invoiceNumber || jsFalsyStr raw.vendorName
          || jsFalsyNum raw.totalAmount then
        .error .MissingRequiredFields
      else
        .ok raw

end SrcInvoiceParser

/-- The default-filling block of the image pipeline (src/unnamed/part_004,
lines 182-186): only invoiceNumber, vendorName, totalAmount, currency and
items are defaulted; invoiceDate and subtotal are left as the reply had them. -/
def applyImageDefaults (p : RawInvoiceData) : RawInvoiceData :=
  let p1 := { p with invoiceNumber := some (orStr p.invoiceNumber "UNKNOWN") }
  let p2 := { p1 with vendorName := some (orStr p1.vendorName "UNKNOWN") }
  let p3 := { p2 with totalAmount := some (orNum p2.totalAmount 0) }
  let p4 := { p3 with currency := some (orStr p3.currency "USD") }
  { p4 with items := some (orList p4.items []) }

/-- Function `parseInvoiceImageBase64` (src/unnamed/part_004, lines 107-198) from the
gateway call onward; client construction and file reading are I/O shims the
core does not own.  No classification step exists here; empty content and
invalid JSON throw and the catch rethrows; a parsed reply gets the image
pipeline's five defaults applied. -/
def parseInvoiceImageBase64 (extractOutcome : GatewayOutcome RawInvoiceData) :
    Except ExtractError RawInvoiceData :=
  match extractOutcome with
  | .failure => .error .GatewayFailure
  | .noContent => .error .NoContentError
  | .badJson => .error .MalformedResponseError
  | .reply raw => .ok (applyImageDefaults raw)

/-- Type `DocumentClassification` (src/unnamed/part_004, lines 70-80). -/
structure DocumentClassification where
  documentType : String
  confidence : ℚ
  metadata : Option (List (String × String))
deriving DecidableEq

/-- Type `DocumentParsingResult` (src/unnamed/part_004, lines 85-90): one batch
outcome, correlated by the originating file path. -/
structure DocumentParsingResult where
  filePath : String
  classification : DocumentClassification
  parsedData : Option RawInvoiceData
  error : Option String
deriving DecidableEq

/-- Function `parseDocuments` (src/unnamed/part_004, lines 227-242).  The body is a
stub: after the TODO comment it builds an empty `results` array and returns
it unchanged, performing no per-document work. -/
def parseDocuments (imagePaths : List String) : List DocumentParsingResult :=
  let results : List DocumentParsingResult := []
  results

/-- Every enum member's string value is one of the six enum values. -/
lemma invoiceTypeValue_mem (t : InvoiceType) :
    invoiceTypeValue t ∈ invoiceTypeValues := by
  cases t <;> simp [invoiceTypeValue, invoiceTypeValues]

/-- Claim C3 counterexample: the backend reply with type "bogus" and
confidence 0.5 is classified UNKNOWN but keeps confidence 0.5 — the reply's
confidence is not forced to 0 just because the type was invalid. -/
theorem classifyInvoice_bogus_half_cx :
    classifyInvoice (.reply ⟨.jstr "bogus", .jnum 0.5, none⟩)
      = ⟨.UNKNOWN, 0.5, none, none⟩ ∧ (0.5 : ℚ) ≠ 0 := by
  constructor
  · simp [classifyInvoice, invoiceTypeOfString]
    norm_num
  · norm_num

/-- Claim C3 (amended): a reply whose type field is not one of the six enum
values is coerced to UNKNOWN, while the confidence is validated
independently — kept when it is a number in [0,1], forced to 0 only when it
is outside [0,1] (or not a number at all). -/
theorem classifyInvoice_invalid_type_amended (s : String) (q : ℚ)
    (pts : Option (List String)) (hs : invoiceTypeOfString s = none) :
    (classifyInvoice (.reply ⟨.jstr s, .jnum q, pts⟩)).type = .UNKNOWN
    ∧ (0 ≤ q → q ≤ 1 →
        (classifyInvoice (.reply ⟨.jstr s, .jnum q, pts⟩)).confidence = q)
    ∧ ((q < 0 ∨ 1 < q) →
        (classifyInvoice (.reply ⟨.jstr s, .jnum q, pts⟩)).confidence = 0) := by
  refine ⟨?_, ?_, ?_⟩
  · simp [classifyInvoice, hs]
  · intro h0 h1
    have hn : ¬(q < 0 ∨ 1 < q) := by push_neg; exact ⟨h0, h1⟩
    simp [classifyInvoice, hn]
  · intro h
    simp [classifyInvoice, h]

/-- Claim C3 witness: the amended statement at the concrete reply
with type "bogus" and confidence 0.5. -/
theorem classifyInvoice_invalid_type_amended_w :
    invoiceTypeOfString "bogus" = none
    ∧ (classifyInvoice (.reply ⟨.jstr "bogus", .jnum 0.5, none⟩)).type = .UNKNOWN
    ∧ (classifyInvoice (.reply ⟨.jstr "bogus", .jnum 0.5, none⟩)).confidence = 0.5 := by
  have h := classifyInvoice_invalid_type_amended "bogus" 0.5 none (by decide)
  exact ⟨by decide, h.1, h.2.1 (by norm_num) (by norm_num)⟩

/-- Claim C4: whatever the gateway does — throw, return empty content,
return non-JSON content, or return any parsed reply — `classifyInvoice`
returns rather than propagating a failure, the three failure outcomes all
map to `{type: UNKNOWN, confidence: 0}`, and the returned classification
always carries a type from the closed enum and a confidence in [0,1]. -/
theorem classifyInvoice_never_propagates_failure :
    classifyInvoice .failure = ⟨.UNKNOWN, 0, none, none⟩
    ∧ classifyInvoice .noContent = ⟨.UNKNOWN, 0, none, none⟩
    ∧ classifyInvoice .badJson = ⟨.UNKNOWN, 0, none, none⟩
    ∧ ∀ o : GatewayOutcome RawClassificationReply,
        0 ≤ (classifyInvoice o).confidence
        ∧ (classifyInvoice o).confidence ≤ 1
        ∧ invoiceTypeValue (classifyInvoice o).type ∈ invoiceTypeValues := by
  refine ⟨rfl, rfl, rfl, ?_⟩
  intro o
  refine ⟨?_, ?_, invoiceTypeValue_mem _⟩ <;>
  · cases o with
    | failure => norm_num [classifyInvoice]
    | noContent => norm_num [classifyInvoice]
    | badJson => norm_num [classifyInvoice]
    | reply r =>
        simp only [classifyInvoice]
        rcases r.confidence <;> try norm_num
        case jnum q =>
          split_ifs with h
          · norm_num
          · push_neg at h
            first
            | exact h.1
            | exact h.2

/-- Claim C10 counterexample: a backend reply that carries runner-up types
(["receipt", "proforma"]) is classified with `possibleTypes` absent — the
runner-ups are not contained in the returned value. -/
theorem classifyInvoice_drops_possibleTypes_cx :
    classifyInvoice
        (.reply ⟨.jstr "standard", .jnum 0.9, some ["receipt", "proforma"]⟩)
      = ⟨.STANDARD, 0.9, none, none⟩
    ∧ (classifyInvoice
        (.reply ⟨.jstr "standard", .jnum 0.9,
          some ["receipt", "proforma"]⟩)).possibleTypes = none := by
  constructor
  · simp [classifyInvoice, invoiceTypeOfString]
    norm_num
  · rfl

/-- Claim C10 (amended): `classifyInvoice` returns only `type` and
`confidence`; for every gateway outcome, including replies carrying
runner-up types, the returned `possibleTypes` and `metadata` are absent,
so the classifier exposes no caller-side disambiguation data. -/
theorem classifyInvoice_possibleTypes_none_amended
    (o : GatewayOutcome RawClassificationReply) :
    (classifyInvoice o).possibleTypes = none
    ∧ (classifyInvoice o).metadata = none := by
  cases o <;> exact ⟨rfl, rfl⟩

/-- Field-by-field reading of the default-filling block. -/
lemma applyDefaults_fields (today : String) (p : RawInvoiceData) :
    applyDefaults today p =
      { p with
        invoiceNumber := some (orStr p.invoiceNumber "UNKNOWN"),
        vendorName := some (orStr p.vendorName "UNKNOWN"),
        totalAmount := some (orNum p.totalAmount 0),
        currency := some (orStr p.currency "USD"),
        items := some (orList p.items []),
        invoiceDate := some (orStr p.invoiceDate today),
        subtotal := some (orNum p.subtotal (orNum p.totalAmount 0)) } := rfl

/-- Field-by-field reading of the image pipeline's default-filling block. -/
lemma applyImageDefaults_fields (p : RawInvoiceData) :
    applyImageDefaults p =
      { p with
        invoiceNumber := some (orStr p.invoiceNumber "UNKNOWN"),
        vendorName := some (orStr p.vendorName "UNKNOWN"),
        totalAmount := some (orNum p.totalAmount 0),
        currency := some (orStr p.currency "USD"),
        items := some (orList p.items []) } := rfl

lemma orStr_falsy (v : Option String) (d : String)
    (h : v = none ∨ v = some "") : orStr v d = d := by
  rcases h with h | h <;> simp [h, orStr]

lemma orStr_truthy (s d : String) (h : s ≠ "") : orStr (some s) d = s := by
  simp [orStr, h]

lemma orNum_falsy (v : Option ℚ) (d : ℚ)
    (h : v = none ∨ v = some 0) : orNum v d = d := by
  rcases h with h | h <;> simp [h, orNum]

lemma orNum_truthy (q d : ℚ) (h : q ≠ 0) : orNum (some q) d = q := by
  simp [orNum, h]

/-- Claim C6: the normalization block fills exactly the listed defaults,
each only when the field is absent or falsy in the raw reply, keeps every
present truthy value unchanged, takes the subtotal default from the
post-default totalAmount, and leaves every other field of the reply
untouched. -/
theorem applyDefaults_exact_table (today : String) (p : RawInvoiceData) :
    ((p.invoiceNumber = none ∨ p.invoiceNumber = some "") →
        (applyDefaults today p).invoiceNumber = some "UNKNOWN")
    ∧ (∀ s, p.invoiceNumber = some s → s ≠ "" →
        (applyDefaults today p).invoiceNumber = some s)
    ∧ ((p.vendorName = none ∨ p.vendorName = some "") →
        (applyDefaults today p).vendorName = some "UNKNOWN")
    ∧ (∀ s, p.vendorName = some s → s ≠ "" →
        (applyDefaults today p).vendorName = some s)
    ∧ ((p.totalAmount = none ∨ p.totalAmount = some 0) →
        (applyDefaults today p).totalAmount = some 0)
    ∧ (∀ q, p.totalAmount = some q → q ≠ 0 →
        (applyDefaults today p).totalAmount = some q)
    ∧ ((p.currency = none ∨ p.currency = some "") →
        (applyDefaults today p).currency = some "USD")
    ∧ (∀ s, p.currency = some s → s ≠ "" →
        (applyDefaults today p).currency = some s)
    ∧ (p.items = none → (applyDefaults today p).items = some [])
    ∧ (∀ xs, p.items = some xs → (applyDefaults today p).items = some xs)
    ∧ ((p.invoiceDate = none ∨ p.invoiceDate = some "") →
        (applyDefaults today p).invoiceDate = some today)
    ∧ (∀ s, p.invoiceDate = some s → s ≠ "" →
        (applyDefaults today p).invoiceDate = some s)
    ∧ ((p.subtotal = none ∨ p.subtotal = some 0) →
        (applyDefaults today p).subtotal = (applyDefaults today p).totalAmount)
    ∧ (∀ q, p.subtotal = some q → q ≠ 0 →
        (applyDefaults today p).subtotal = some q)
    ∧ (applyDefaults today p).dueDate = p.dueDate
    ∧ (applyDefaults today p).vendorAddress = p.vendorAddress
    ∧ (applyDefaults today p).customerName = p.customerName
    ∧ (applyDefaults today p).customerAddress = p.customerAddress
    ∧ (applyDefaults today p).taxAmount = p.taxAmount
    ∧ (applyDefaults today p).paymentTerms = p.paymentTerms := by
  rw [applyDefaults_fields]
  refine ⟨?_, ?_, ?_, ?_, ?_, ?_, ?_, ?_, ?_, ?_, ?_, ?_, ?_, ?_,
    rfl, rfl, rfl, rfl, rfl, rfl⟩
  · intro h; simp [orStr_falsy _ _ h]
  · intro s hs hne; simp [hs, orStr_truthy _ _ hne]
  · intro h; simp [orStr_falsy _ _ h]
  · intro s hs hne; simp [hs, orStr_truthy _ _ hne]
  · intro h; simp [orNum_falsy _ _ h]
  · intro q hq hne; simp [hq, orNum_truthy _ _ hne]
  · intro h; simp [orStr_falsy _ _ h]
  · intro s hs hne; simp [hs, orStr_truthy _ _ hne]
  · intro h; simp [h, orList]
  · intro xs hxs; simp [hxs, orList]
  · intro h; simp [orStr_falsy _ _ h]
  · intro s hs hne; simp [hs, orStr_truthy _ _ hne]
  · intro h; simp [orNum_falsy _ _ h]
  · intro q hq hne; simp [hq, orNum_truthy _ _ hne]

/-- Claim C6 witness: the table at a concrete raw reply that has a truthy
totalAmount of 100 and everything else absent, on the date 2026-10-12:
invoiceNumber defaults to "UNKNOWN", totalAmount is kept, and the subtotal
default equals the post-default totalAmount. -/
theorem applyDefaults_exact_table_w :
    (applyDefaults "2026-10-12"
        { emptyRawInvoice with totalAmount := some 100 }).invoiceNumber
      = some "UNKNOWN"
    ∧ (applyDefaults "2026-10-12"
        { emptyRawInvoice with totalAmount := some 100 }).totalAmount
      = some 100
    ∧ (applyDefaults "2026-10-12"
        { emptyRawInvoice with totalAmount := some 100 }).subtotal
      = (applyDefaults "2026-10-12"
        { emptyRawInvoice with totalAmount := some 100 }).totalAmount := by
  have h := applyDefaults_exact_table "2026-10-12"
    { emptyRawInvoice with totalAmount := some 100 }
  refine ⟨h.1 (Or.inl rfl), ?_, ?_⟩
  · exact h.2.2.2.2.2.1 100 rfl (by norm_num)
  · exact h.2.2.2.2.2.2.2.2.2.2.2.2.1 (Or.inl rfl)

/-- Claim C2 counterexample: the image pipeline applied to a backend reply
with every field omitted returns a record whose invoiceDate and subtotal are
still absent — required fields are not all present after the image pipeline,
unlike the text pipeline. -/
theorem parseInvoiceImageBase64_missing_date_cx :
    parseInvoiceImageBase64 (.reply emptyRawInvoice)
      = .ok (applyImageDefaults emptyRawInvoice)
    ∧ (applyImageDefaults emptyRawInvoice).invoiceDate = none
    ∧ (applyImageDefaults emptyRawInvoice).subtotal = none :=
  ⟨rfl, rfl, rfl⟩

/-- Claim C2 (amended): every record the text pipeline `parseInvoice`
returns has all seven required fields present and non-null, whatever the
backend omitted; the image pipeline guarantees this only for invoiceNumber,
vendorName, totalAmount, currency and items — its invoiceDate and subtotal
are only as present as the backend reply made them. -/
theorem required_fields_present_amended (today : String)
    (co : GatewayOutcome RawClassificationReply)
    (eo : GatewayOutcome RawInvoiceData) (skip : Bool) (r : ParsedInvoice)
    (h : (parseInvoice today co eo skip).result = .ok r) :
    (r.data.invoiceNumber.isSome ∧ r.data.invoiceDate.isSome
      ∧ r.data.vendorName.isSome ∧ r.data.items.isSome
      ∧ r.data.subtotal.isSome ∧ r.data.totalAmount.isSome
      ∧ r.data.currency.isSome)
    ∧ ∀ (eo2 : GatewayOutcome RawInvoiceData) (d : RawInvoiceData),
        parseInvoiceImageBase64 eo2 = .ok d →
        d.invoiceNumber.isSome ∧ d.vendorName.isSome ∧ d.totalAmount.isSome
          ∧ d.currency.isSome ∧ d.items.isSome := by
  constructor
  · rcases eo with _ | _ | _ | raw
    · exact absurd h (by simp [parseInvoice])
    · exact absurd h (by simp [parseInvoice])
    · exact absurd h (by simp [parseInvoice])
    · have hr : applyDefaults today raw = r.data := by
        simp [parseInvoice] at h
        rw [← h]
      rw [← hr, applyDefaults_fields]
      simp
  · intro eo2 d hd
    rcases eo2 with _ | _ | _ | raw
    · exact absurd hd (by simp [parseInvoiceImageBase64])
    · exact absurd hd (by simp [parseInvoiceImageBase64])
    · exact absurd hd (by simp [parseInvoiceImageBase64])
    · have hr : applyImageDefaults raw = d := by
        simpa [parseInvoiceImageBase64] using hd
      rw [← hr, applyImageDefaults_fields]
      simp

/-- Claim C2 witness: the amended statement at a concrete run of the text
pipeline on the all-fields-omitted reply. -/
theorem required_fields_present_amended_w :
    (parseInvoice "2026-10-12" .failure (.reply emptyRawInvoice) false).result
      = .ok ⟨applyDefaults "2026-10-12" emptyRawInvoice,
             some (classifyInvoice .failure)⟩
    ∧ (applyDefaults "2026-10-12" emptyRawInvoice).invoiceNumber.isSome
    ∧ (applyDefaults "2026-10-12" emptyRawInvoice).invoiceDate.isSome
    ∧ (applyDefaults "2026-10-12" emptyRawInvoice).subtotal.isSome := by
  have h := required_fields_present_amended "2026-10-12" .failure
    (.reply emptyRawInvoice) false
    ⟨applyDefaults "2026-10-12" emptyRawInvoice, some (classifyInvoice .failure)⟩
    rfl
  exact ⟨rfl, h.1.1, h.1.2.1, h.1.2.2.2.2.1⟩

/-- Claim C7: during extraction, an empty gateway reply surfaces as the
NoContentError-kind failure and a non-JSON reply as the
MalformedResponseError-kind failure, in the classification-aware pipeline,
the src/src/invoiceParser.ts variant and the image pipeline alike; the
result is the error itself, never a defaulted record. -/
theorem extraction_fatal_errors_surface (today : String)
    (co : GatewayOutcome RawClassificationReply) (skip : Bool) :
    (parseInvoice today co .noContent skip).result = .error .NoContentError
    ∧ (parseInvoice today co .badJson skip).result
        = .error .MalformedResponseError
    ∧ SrcInvoiceParser.parseInvoice .noContent = .error .NoContentError
    ∧ SrcInvoiceParser.parseInvoice .badJson = .error .MalformedResponseError
    ∧ parseInvoiceImageBase64 .noContent = .error .NoContentError
    ∧ parseInvoiceImageBase64 .badJson = .error .MalformedResponseError :=
  ⟨rfl, rfl, rfl, rfl, rfl, rfl⟩

/-- Claim C8 counterexample: the variant in src/src/invoiceParser.ts throws
"Missing required fields" on the backend reply that omits every field — the
inline required-field check in its live path does raise, so the extraction
pipeline of that file is not "never throwing" for missing fields. -/
theorem srcParseInvoice_missing_fields_cx :
    SrcInvoiceParser.parseInvoice (.reply emptyRawInvoice)
      = .error .MissingRequiredFields := rfl

/-- Claim C8 (amended): the classification-aware pipeline never raises the
missing-required-fields error — every parsed backend reply comes back as a
defaulted record — while the src/src/invoiceParser.ts variant raises it
exactly when invoiceNumber, vendorName or totalAmount is absent or falsy;
only the standalone `validateInvoice` helper is dead code. -/
theorem finalPipeline_defaults_amended (today : String)
    (co : GatewayOutcome RawClassificationReply)
    (eo : GatewayOutcome RawInvoiceData) (skip : Bool) (raw : RawInvoiceData) :
    (parseInvoice today co (.reply raw) skip).result
      = .ok ⟨applyDefaults today raw,
             if skip then none else some (classifyInvoice co)⟩
    ∧ (parseInvoice today co eo skip).result ≠ .error .MissingRequiredFields
    ∧ (SrcInvoiceParser.parseInvoice (.reply raw) = .error .MissingRequiredFields
        ↔ (jsFalsyStr raw.invoiceNumber || jsFalsyStr raw.vendorName
            || jsFalsyNum raw.totalAmount) = true) := by
  refine ⟨rfl, ?_, ?_⟩
  · cases eo <;> simp [parseInvoice]
  · constructor
    · intro h
      by_contra hb
      simp [SrcInvoiceParser.parseInvoice, hb] at h
    · intro hb
      simp [SrcInvoiceParser.parseInvoice, hb]

/-- Claim C8 witness: the amended statement at a concrete run with
classification skipped on the all-fields-omitted reply. -/
theorem finalPipeline_defaults_amended_w :
    (parseInvoice "2026-10-12" .failure (.reply emptyRawInvoice) true).result
      = .ok ⟨applyDefaults "2026-10-12" emptyRawInvoice, none⟩
    ∧ (parseInvoice "2026-10-12" .failure (.reply emptyRawInvoice) true).result
      ≠ .error .MissingRequiredFields := by
  have h := finalPipeline_defaults_amended "2026-10-12" .failure
    (.reply emptyRawInvoice) true emptyRawInvoice
  exact ⟨h.1, h.2.1⟩

/-- Claim C9: instruction selection is a pure function of the
classification — absent or UNKNOWN yields exactly the generic instruction,
any other type yields the generic instruction with a hint naming the
uppercased type appended — and a run with classification skipped sends the
generic instruction and makes zero classification gateway calls. -/
theorem selectInstruction_skip_pure (c : InvoiceClassification)
    (today : String) (co : GatewayOutcome RawClassificationReply)
    (eo : GatewayOutcome RawInvoiceData) :
    selectInstruction none = genericExtractionInstruction
    ∧ (c.type = .UNKNOWN →
        selectInstruction (some c) = genericExtractionInstruction)
    ∧ (c.type ≠ .UNKNOWN → selectInstruction (some c)
        = genericExtractionInstruction ++ " This is a "
          ++ (invoiceTypeValue c.type).toUpper ++ " type invoice.")
    ∧ (parseInvoice today co eo true).instruction = genericExtractionInstruction
    ∧ (parseInvoice today co eo true).classifierCalls = 0
    ∧ (parseInvoice today co eo false).instruction
        = selectInstruction (some (classifyInvoice co))
    ∧ (parseInvoice today co eo false).classifierCalls = 1 := by
  refine ⟨rfl, ?_, ?_, rfl, rfl, rfl, rfl⟩
  · intro h
    simp [selectInstruction, h]
  · intro h
    simp [selectInstruction, h]

/-- Claim C9 witness: the hint for a concrete RECEIPT classification. -/
theorem selectInstruction_skip_pure_w :
    (⟨.RECEIPT, 0.8, none, none⟩ : InvoiceClassification).type ≠ .UNKNOWN
    ∧ selectInstruction (some ⟨.RECEIPT, 0.8, none, none⟩)
        = genericExtractionInstruction ++ " This is a "
          ++ (invoiceTypeValue InvoiceType.RECEIPT).toUpper ++ " type invoice." :=
  ⟨by decide,
   (selectInstruction_skip_pure ⟨.RECEIPT, 0.8, none, none⟩ "2026-10-12"
      .failure .failure).2.2.1 (by decide)⟩

/-- Claim C1 (code bug): `parseDocuments` is a stub that returns the empty
array for every input, so a one-element batch yields zero results instead of
the one in-order result, with matching filePath, that the claim and the
repository's own batch tests require. -/
theorem parseDocuments_single_input_empty :
    parseDocuments ["Sample-BillOfLading-1.png"] = []
    ∧ (parseDocuments ["Sample-BillOfLading-1.png"]).length = 0
    ∧ (["Sample-BillOfLading-1.png"] : List String).length = 1 :=
  ⟨rfl, rfl, rfl⟩

/-- Claim C5 (code bug): on a batch with one readable document and one
missing file, the stub `parseDocuments` returns no results at all — the
valid document yields no result and the missing file's failure is recorded
in no item's error field, contrary to the per-item isolation the claim and
the repository's own batch tests require. -/
theorem parseDocuments_batch_isolation_empty :
    parseDocuments ["Sample-BillOfLading-1.png", "non-existent-file.png"] = []
    ∧ (parseDocuments
        ["Sample-BillOfLading-1.png", "non-existent-file.png"]).length = 0 :=
  ⟨rfl, rfl⟩
